import Mathlib

/-!
Verification of the SecondBrain repository: a shallow embedding of the
persistence layer (database.py) and the RAG helper module (rag_helper.py),
with theorems settling the frozen claims about tag search, todo filtering
and sorting, the daily task view, schema initialization, tag parsing and
prompt assembly.

Conventions of the embedding:
- SQLite rows become Lean structures; a NULL column value is `none`.
- Calendar dates and timestamps are day numbers (`Int`); SQLite compares
  well-formed YYYY-MM-DD strings chronologically, so integer comparison is
  faithful. The SQL constant DATE(now) becomes an explicit `today` argument.
- SQL ORDER BY becomes a stable insertion sort by a key drawn from a linear
  order; DESC keys go through `OrderDual`. SQLite leaves the relative order
  of key-tied rows unspecified, so claims are settled only up to key order.
- Python string operations (split, strip, lower) are re-implemented over
  `List Char` so that the kernel can evaluate them on concrete inputs.
- Fallible Python code returns `Except String`; an exception that a caller
  catches with try/except is modelled by `tryOp`.
-/

/-! ## Generic sorting by key, modelling SQL ORDER BY -/

def keyRel {α K : Type} [LinearOrder K] (k : α → K) : α → α → Prop :=
  fun a b => k a ≤ k b

instance {α K : Type} [LinearOrder K] (k : α → K) : DecidableRel (keyRel k) :=
  fun a b => inferInstanceAs (Decidable (k a ≤ k b))

instance {α K : Type} [LinearOrder K] (k : α → K) : IsTotal α (keyRel k) :=
  ⟨fun a b => le_total (k a) (k b)⟩

instance {α K : Type} [LinearOrder K] (k : α → K) : IsTrans α (keyRel k) :=
  ⟨fun _ _ _ h1 h2 => le_trans h1 h2⟩

def sortByKey {α K : Type} [LinearOrder K] (k : α → K) (l : List α) : List α :=
  List.insertionSort (keyRel k) l

/-- Sort in the direction named by an ASC or DESC string: ORDER BY key dir. -/
def dirSort {α K : Type} [LinearOrder K] (so : String) (k : α → K) (l : List α) : List α :=
  if so = "ASC" then sortByKey k l
  else sortByKey (fun a => OrderDual.toDual (k a)) l

/-! ## Python string primitives, executable in the kernel -/

/-- Characters the Python method str.strip removes by default. -/
def isPyWhitespace (c : Char) : Bool :=
  c = ' ' || c = '\t' || c = '\n' || c = '\r' || c = '\x0b' || c = '\x0c'

/-- Python s.strip): drop whitespace from both ends. -/
def pyStrip (s : String) : String :=
  String.mk (((s.data.dropWhile isPyWhitespace).reverse.dropWhile isPyWhitespace).reverse)

def pySplitAux (sep : Char) : List Char → List Char → List (List Char)
  | [], acc => [acc.reverse]
  | c :: cs, acc =>
      if c = sep then acc.reverse :: pySplitAux sep cs []
      else pySplitAux sep cs (c :: acc)

/-- Python s.split(sep): split at every separator, keeping empty pieces. -/
def pySplit (s : String) (sep : Char) : List String :=
  (pySplitAux sep s.data []).map String.mk

/-- Python s.lower() restricted to the ASCII letters that occur here. -/
def pyLower (s : String) : String :=
  String.mk (s.data.map Char.toLower)

def natCharsAux : Nat → Nat → List Char
  | 0, _ => []
  | _ + 1, 0 => []
  | fuel + 1, n + 1 =>
      natCharsAux fuel ((n + 1) / 10) ++ [Char.ofNat (48 + (n + 1) % 10)]

def natChars (n : Nat) : List Char :=
  if n = 0 then ['0'] else natCharsAux n n

/-- Decimal rendering of a natural number, as Python string interpolation does. -/
def pyNatStr (n : Nat) : String :=
  String.mk (natChars n)

/-- Python truthiness of an optional string: None and the empty string are falsy. -/
def pyBool : Option String → Bool
  | none => false
  | some s => s != ""

/-- Python idiom (x or ...): an absent value is replaced by the empty string. -/
def orEmpty : Option String → String
  | none => ""
  | some s => s

/-! ## Data model: experiences (table experiences, database.py) -/

structure ExperienceRow where
  id : Nat
  title : String
  content : Option String
  tags : Option String
  category : Option String
  context : Option String
  created_at : Int
  updated_at : Int
deriving Repr, DecidableEq

structure DocMetadata where
  type : String
  source : String
  has_tags : Bool
  has_category : Bool
  has_context : Bool
deriving Repr, DecidableEq

/-- The normalized, retrieval-ready shape of an experience (the dict built by
format_experience_for_rag in rag_helper.py). -/
structure Document where
  id : Nat
  title : String
  content : String
  tags : List String
  category : Option String
  context : Option String
  created_at : Int
  updated_at : Int
  metadata : DocMetadata
deriving Repr, DecidableEq

/-- The list comprehension in rag_helper.py line 26: split the raw tags string
on commas, strip each token, and keep only the non-empty results. -/
def parseTags (s : String) : List String :=
  ((pySplit s ',').map pyStrip).filter (fun t => t != "")

/-- Embedding of format_experience_for_rag (rag_helper.py lines 12 to 38). The
record it receives is a dict built from a row, so every key is present and
experience.get returns the column value, which may be None. -/
def format_experience_for_rag (e : ExperienceRow) : Document :=
  { id := e.id
    title := e.title
    content := orEmpty e.content
    tags := parseTags (orEmpty e.tags)
    category := e.category
    context := e.context
    created_at := e.created_at
    updated_at := e.updated_at
    metadata :=
      { type := "past_experience"
        source := "second_brain_app"
        has_tags := pyBool e.tags
        has_category := pyBool e.category
        has_context := pyBool e.context } }

/-! ## Persistence: get_experiences (database.py lines 420 to 465) -/

def expKeep (from_date to_date : Option Int) (e : ExperienceRow) : Bool :=
  (match from_date with
   | none => true
   | some d => decide (d ≤ e.created_at))
  && (match to_date with
      | none => true
      | some d => decide (e.created_at ≤ d))

def expAllowedSorts : List String := ["created_at", "updated_at", "title"]

def get_experiences (store : List ExperienceRow) (from_date to_date : Option Int)
    (sort_by sort_order : String) : List ExperienceRow :=
  let filtered := store.filter (expKeep from_date to_date)
  let sb := if expAllowedSorts.contains sort_by then sort_by else "created_at"
  let so := if sort_order = "ASC" ∨ sort_order = "DESC" then sort_order else "DESC"
  if sb = "title" then dirSort so (fun e => e.title) filtered
  else if sb = "updated_at" then dirSort so (fun e => e.updated_at) filtered
  else dirSort so (fun e => e.created_at) filtered

/-! ## RAG helper: tag search and prompt assembly (rag_helper.py) -/

/-- Models the attribute access exp.get(...) on a raw sqlite3.Row result row
(rag_helper.py line 128 and line 152). A sqlite3.Row object supports indexing
and keys() but has no method named get, so the lookup raises AttributeError
no matter which field or default is asked for. -/
def rowGetAttr (_exp : ExperienceRow) (_field : String) (_default : String) :
    Except String String :=
  Except.error "AttributeError: sqlite3.Row object has no attribute get"

/-- The loop body of search_experiences_by_tags (rag_helper.py lines 127 to
133): for each row it first evaluates exp.get, then compares case-folded tag
sets, keeping matching rows in order. -/
def searchTagsLoop (tags : List String) : List ExperienceRow → Except String (List Document)
  | [] => Except.ok []
  | exp :: rest => do
      let rawTags ← rowGetAttr exp "tags" ""
      let expTags := (parseTags rawTags).map pyLower
      let queryTags := tags.map (fun t => pyLower (pyStrip t))
      let restDocs ← searchTagsLoop tags rest
      Except.ok
        (if queryTags.any (fun q => expTags.contains q) then
          format_experience_for_rag exp :: restDocs
        else restDocs)

/-- Embedding of search_experiences_by_tags (rag_helper.py lines 114 to 135):
fetch every experience with the default ordering, then scan them. -/
def search_experiences_by_tags (store : List ExperienceRow) (tags : List String) :
    Except String (List Document) :=
  searchTagsLoop tags (get_experiences store none none "created_at" "DESC")

/-- One experience block of the prompt context (rag_helper.py lines 94 to
106), numbered from 1: title always; category, tags and context lines only
when truthy; then the content. -/
def expBlock (i : Nat) (exp : ExperienceRow) : List String :=
  let f := format_experience_for_rag exp
  ["\n--- Experience " ++ pyNatStr i ++ " ---", "Title: " ++ f.title]
  ++ (if pyBool f.category then ["Category: " ++ orEmpty f.category] else [])
  ++ (if f.tags != [] then ["Tags: " ++ String.intercalate ", " f.tags] else [])
  ++ (if pyBool f.context then ["Context: " ++ orEmpty f.context] else [])
  ++ ["\nContent:\n" ++ f.content ++ "\n"]

/-- Embedding of create_rag_prompt_context (rag_helper.py lines 77 to 111):
header, the blocks of the first max_experiences records via enumerate(.., 1),
the literal user query, and the closing instruction, joined by newlines. -/
def create_rag_prompt_context (query : String) (relevant_experiences : List ExperienceRow)
    (max_experiences : Nat) : String :=
  let parts :=
    ["Based on the following past experiences:\n"]
    ++ (((relevant_experiences.take max_experiences).enum.map
          (fun p => expBlock (p.1 + 1) p.2)).flatten)
    ++ ["\nUser Query: " ++ query ++ "\n",
        "Please provide a helpful response based on the above experiences."]
  String.intercalate "\n" parts

/-- Indexed recursion producing the experience blocks in order, used to state
the spec reading of the prompt assembly (one block per listed experience,
numbered consecutively from the given start). -/
def promptBlocks (i : Nat) : List ExperienceRow → List String
  | [] => []
  | e :: rest => expBlock i e ++ promptBlocks (i + 1) rest

/-! ## Data model: tasks (table todos, database.py) -/

structure TodoRow where
  id : Nat
  unique_id : Option String
  title : String
  description : Option String
  status : String
  priority : Option String
  target_date : Option Int
  start_date : Option Int
  end_date : Option Int
  created_at : Int
  updated_at : Int
deriving Repr, DecidableEq

/-- The CASE expression of the status sort (database.py lines 223 to 231). -/
def statusRank (s : String) : Nat :=
  if s = "in-queue" then 1
  else if s = "ready" then 2
  else if s = "in-progress" then 3
  else if s = "hold" then 4
  else if s = "done" then 5
  else 6

/-- The CASE expression of the priority sort (database.py lines 235 to 242);
a NULL priority matches no WHEN arm and falls to the ELSE rank. -/
def priorityRank : Option String → Nat
  | some "Low" => 1
  | some "Medium" => 2
  | some "High" => 3
  | some "Critical" => 4
  | _ => 5

/-- The CASE expression of get_todays_tasks (database.py lines 292 to 298). -/
def todayPrioRank : Option String → Nat
  | some "Critical" => 1
  | some "High" => 2
  | some "Medium" => 3
  | some "Low" => 4
  | _ => 5

/-- SQLite ordering of a nullable column: NULL sorts below every value. -/
def optKey (x : Option Int) : WithBot Int :=
  match x with
  | none => ⊥
  | some v => (v : WithBot Int)

/-- The expression julianday(target_date) - julianday(now); rows with a NULL
target date are tied on this key (their difference is NULL) and are separated
from the rest by the null flag that precedes this key. -/
def remainingDays (today : Int) (t : TodoRow) : Int :=
  match t.target_date with
  | none => 0
  | some d => d - today

/-- The WHERE clause built by get_todos (database.py lines 193 to 207). -/
def todoKeep (status_filter include_done : String) (from_date to_date : Option Int)
    (t : TodoRow) : Bool :=
  (if status_filter ≠ "" then t.status == status_filter
   else if include_done == "false" then t.status != "done"
   else true)
  && (match from_date with
      | none => true
      | some d => decide (d ≤ t.created_at))
  && (match to_date with
      | none => true
      | some d => decide (t.created_at ≤ d))

def todoAllowedSorts : List String :=
  ["created_at", "updated_at", "title", "status", "priority", "target_date",
   "start_date", "end_date", "remaining_days"]

/-- The ORDER BY clause chosen by get_todos (database.py lines 220 to 256)
once the sort column and direction have been validated. -/
def todoSort (today : Int) (sb so : String) (filtered : List TodoRow) : List TodoRow :=
  if sb = "status" then dirSort so (fun t => statusRank t.status) filtered
  else if sb = "priority" then dirSort so (fun t => priorityRank t.priority) filtered
  else if sb = "remaining_days" then
    if so = "ASC" then
      sortByKey
        (fun t => toLex (((if t.target_date = none then 1 else 0 : Nat)),
          remainingDays today t)) filtered
    else
      sortByKey
        (fun t => toLex (((if t.target_date = none then 1 else 0 : Nat)),
          OrderDual.toDual (remainingDays today t))) filtered
  else if sb = "title" then dirSort so (fun t => t.title) filtered
  else if sb = "updated_at" then dirSort so (fun t => t.updated_at) filtered
  else if sb = "target_date" then dirSort so (fun t => optKey t.target_date) filtered
  else if sb = "start_date" then dirSort so (fun t => optKey t.start_date) filtered
  else if sb = "end_date" then dirSort so (fun t => optKey t.end_date) filtered
  else dirSort so (fun t => t.created_at) filtered

/-- Embedding of get_todos (database.py lines 170 to 261): build the WHERE
clause, validate the sort column and direction against the allow lists, then
apply the selected ORDER BY. -/
def get_todos (store : List TodoRow) (today : Int) (status_filter : String)
    (from_date to_date : Option Int) (sort_by sort_order include_done : String) :
    List TodoRow :=
  let filtered := store.filter (todoKeep status_filter include_done from_date to_date)
  let sb := if todoAllowedSorts.contains sort_by then sort_by else "created_at"
  let so := if sort_order = "ASC" ∨ sort_order = "DESC" then sort_order else "DESC"
  todoSort today sb so filtered

/-- The is_overdue CASE of get_todays_tasks (database.py lines 279 to 282):
the planned end has passed and the task is not done; a NULL end date makes
the comparison NULL, hence not overdue. -/
def isOverdue (today : Int) (t : TodoRow) : Bool :=
  match t.end_date with
  | some e => decide (e < today) && (t.status != "done")
  | none => false

/-- First disjunct of the WHERE clause (database.py lines 285 to 286): both
work dates present and today between them, inclusive. -/
def inWorkWindow (today : Int) (t : TodoRow) : Bool :=
  match t.start_date, t.end_date with
  | some s, some e => decide (s ≤ today) && decide (today ≤ e)
  | _, _ => false

/-- The WHERE clause of get_todays_tasks (database.py lines 284 to 289). -/
def todaysPred (today : Int) (t : TodoRow) : Bool :=
  inWorkWindow today t || isOverdue today t

/-- The ORDER BY of get_todays_tasks: is_overdue DESC (overdue rows carry the
smaller flag here so that ascending lexicographic order puts them first),
then the priority CASE ascending, then start_date ascending with NULL first,
as SQLite orders a nullable column ascending. -/
def todaysKey (today : Int) (t : TodoRow) : Lex (Nat × Lex (Nat × WithBot Int)) :=
  toLex ((if isOverdue today t then 0 else 1),
    toLex (todayPrioRank t.priority, optKey t.start_date))

/-- Embedding of get_todays_tasks (database.py lines 264 to 304). -/
def get_todays_tasks (store : List TodoRow) (today : Int) : List TodoRow :=
  sortByKey (todaysKey today) (store.filter (todaysPred today))

/-! ## Schema initialization (init_db, database.py lines 17 to 123) -/

structure TodosSchema where
  tableExists : Bool
  hasPriority : Bool
  hasTargetDate : Bool
  hasStartDate : Bool
  hasEndDate : Bool
  hasUniqueId : Bool
  uniqueIdx : Bool
deriving Repr, DecidableEq

structure ExperiencesSchema where
  tableExists : Bool
  hasTags : Bool
  hasCategory : Bool
  hasContext : Bool
deriving Repr, DecidableEq

/-- The state of the single database file: which columns each table has, the
stored rows, and a counter feeding the uuid generator. -/
structure DBFile where
  todos : TodosSchema
  todoRows : List TodoRow
  exps : ExperiencesSchema
  expRows : List ExperienceRow
  uuidCounter : Nat
deriving Repr, DecidableEq

/-- CREATE TABLE IF NOT EXISTS todos: a fresh table carries every column of
the current schema, including the UNIQUE constraint on unique_id. -/
def createTodosTable (s : DBFile) : DBFile :=
  if s.todos.tableExists then s
  else { s with todos := ⟨true, true, true, true, true, true, true⟩, todoRows := [] }

/-- ALTER TABLE todos ADD COLUMN priority TEXT DEFAULT Medium: fails with
OperationalError when the column exists, otherwise gives the default to
every stored row. -/
def addColumnPriority (s : DBFile) : Except String DBFile :=
  if s.todos.hasPriority then
    Except.error "OperationalError: duplicate column name priority"
  else
    Except.ok { s with
      todos := { s.todos with hasPriority := true }
      todoRows := s.todoRows.map (fun r => { r with priority := some "Medium" }) }

/-- ALTER TABLE todos ADD COLUMN target_date DATE. -/
def addColumnTargetDate (s : DBFile) : Except String DBFile :=
  if s.todos.hasTargetDate then
    Except.error "OperationalError: duplicate column name target_date"
  else
    Except.ok { s with
      todos := { s.todos with hasTargetDate := true }
      todoRows := s.todoRows.map (fun r => { r with target_date := none }) }

/-- ALTER TABLE todos ADD COLUMN start_date DATE. -/
def addColumnStartDate (s : DBFile) : Except String DBFile :=
  if s.todos.hasStartDate then
    Except.error "OperationalError: duplicate column name start_date"
  else
    Except.ok { s with
      todos := { s.todos with hasStartDate := true }
      todoRows := s.todoRows.map (fun r => { r with start_date := none }) }

/-- ALTER TABLE todos ADD COLUMN end_date DATE. -/
def addColumnEndDate (s : DBFile) : Except String DBFile :=
  if s.todos.hasEndDate then
    Except.error "OperationalError: duplicate column name end_date"
  else
    Except.ok { s with
      todos := { s.todos with hasEndDate := true }
      todoRows := s.todoRows.map (fun r => { r with end_date := none }) }

/-- The backfill loop of init_db (database.py lines 76 to 80): each row whose
unique_id is NULL receives a fresh value from the uuid generator. -/
def backfillUniqueIds (gen : Nat → String) : Nat → List TodoRow → List TodoRow
  | _, [] => []
  | c, r :: rs => { r with unique_id := some (gen c) } :: backfillUniqueIds gen (c + 1) rs

/-- ALTER TABLE todos ADD COLUMN unique_id TEXT followed, inside the same try
block, by the backfill of every pre-existing row and only then by CREATE
UNIQUE INDEX (database.py lines 71 to 85). -/
def addColumnUniqueId (gen : Nat → String) (s : DBFile) : Except String DBFile :=
  if s.todos.hasUniqueId then
    Except.error "OperationalError: duplicate column name unique_id"
  else
    let cleared := s.todoRows.map (fun r => { r with unique_id := none })
    Except.ok { s with
      todos := { s.todos with hasUniqueId := true, uniqueIdx := true }
      todoRows := backfillUniqueIds gen s.uuidCounter cleared
      uuidCounter := s.uuidCounter + cleared.length }

/-- CREATE TABLE IF NOT EXISTS experiences. -/
def createExperiencesTable (s : DBFile) : DBFile :=
  if s.exps.tableExists then s
  else { s with exps := ⟨true, true, true, true⟩, expRows := [] }

/-- ALTER TABLE experiences ADD COLUMN tags TEXT. -/
def addColumnTags (s : DBFile) : Except String DBFile :=
  if s.exps.hasTags then
    Except.error "OperationalError: duplicate column name tags"
  else
    Except.ok { s with
      exps := { s.exps with hasTags := true }
      expRows := s.expRows.map (fun r => { r with tags := none }) }

/-- ALTER TABLE experiences ADD COLUMN category TEXT. -/
def addColumnCategory (s : DBFile) : Except String DBFile :=
  if s.exps.hasCategory then
    Except.error "OperationalError: duplicate column name category"
  else
    Except.ok { s with
      exps := { s.exps with hasCategory := true }
      expRows := s.expRows.map (fun r => { r with category := none }) }

/-- ALTER TABLE experiences ADD COLUMN context TEXT. -/
def addColumnContext (s : DBFile) : Except String DBFile :=
  if s.exps.hasContext then
    Except.error "OperationalError: duplicate column name context"
  else
    Except.ok { s with
      exps := { s.exps with hasContext := true }
      expRows := s.expRows.map (fun r => { r with context := none }) }

/-- The try/except sqlite3.OperationalError: pass pattern of init_db: run the
statement and silently ignore its failure. -/
def tryOp (op : DBFile → Except String DBFile) (s : DBFile) : DBFile :=
  match op s with
  | Except.ok s2 => s2
  | Except.error _ => s

/-- Embedding of init_db (database.py lines 17 to 123), in statement order. -/
def init_db (gen : Nat → String) (s : DBFile) : DBFile :=
  let s1 := createTodosTable s
  let s2 := tryOp addColumnPriority s1
  let s3 := tryOp addColumnTargetDate s2
  let s4 := tryOp addColumnStartDate s3
  let s5 := tryOp addColumnEndDate s4
  let s6 := tryOp (addColumnUniqueId gen) s5
  let s7 := createExperiencesTable s6
  let s8 := tryOp addColumnTags s7
  let s9 := tryOp addColumnCategory s8
  tryOp addColumnContext s9

/-- The todos half of init_db: create the table, then the five column adds,
in statement order. init_db is definitionally this phase followed by
expsPhase. -/
def todosPhase (gen : Nat → String) (s : DBFile) : DBFile :=
  tryOp (addColumnUniqueId gen)
    (tryOp addColumnEndDate
      (tryOp addColumnStartDate
        (tryOp addColumnTargetDate
          (tryOp addColumnPriority (createTodosTable s)))))

/-- The experiences half of init_db: create the table, then the three column
adds, in statement order. -/
def expsPhase (s : DBFile) : DBFile :=
  tryOp addColumnContext
    (tryOp addColumnCategory
      (tryOp addColumnTags (createExperiencesTable s)))

/-- Both tables exist and carry every column of the current schema. -/
def AllCurrent (s : DBFile) : Prop :=
  s.todos.tableExists = true ∧ s.todos.hasPriority = true ∧
  s.todos.hasTargetDate = true ∧ s.todos.hasStartDate = true ∧
  s.todos.hasEndDate = true ∧ s.todos.hasUniqueId = true ∧
  s.exps.tableExists = true ∧ s.exps.hasTags = true ∧
  s.exps.hasCategory = true ∧ s.exps.hasContext = true

/-! ## Concrete records used by counterexamples and witnesses -/

def exExp1 : ExperienceRow :=
  { id := 1, title := "Fixing the build", content := some "content text",
    tags := some "python", category := some "Technical", context := some "ctx",
    created_at := 100, updated_at := 100 }

def exExpPlain : ExperienceRow :=
  { id := 2, title := "T", content := some "C", tags := none,
    category := none, context := none, created_at := 50, updated_at := 50 }

def exExpCommas : ExperienceRow :=
  { id := 3, title := "odd tags", content := none, tags := some ",",
    category := none, context := none, created_at := 60, updated_at := 60 }

def exDoneTodo : TodoRow :=
  { id := 1, unique_id := some "u1", title := "t1", description := none,
    status := "done", priority := some "Medium", target_date := none,
    start_date := none, end_date := none, created_at := 10, updated_at := 10 }

def exGarbageTodo : TodoRow :=
  { id := 2, unique_id := some "u2", title := "t2", description := none,
    status := "garbage", priority := some "Medium", target_date := none,
    start_date := none, end_date := none, created_at := 20, updated_at := 20 }

def exOverdueTodo : TodoRow :=
  { id := 3, unique_id := some "u3", title := "t3", description := none,
    status := "in-progress", priority := some "Low", target_date := none,
    start_date := none, end_date := some (-1), created_at := 5, updated_at := 5 }

def exWindowTodo : TodoRow :=
  { id := 4, unique_id := some "u4", title := "t4", description := none,
    status := "in-progress", priority := some "Critical", target_date := none,
    start_date := some (-1), end_date := some 1, created_at := 6, updated_at := 6 }

def exOldDb : DBFile :=
  { todos := ⟨true, false, false, false, false, false, false⟩
    todoRows := [{ exDoneTodo with unique_id := none, priority := none },
                 { exGarbageTodo with unique_id := none, priority := none }]
    exps := ⟨true, false, false, false⟩
    expRows := [{ exExp1 with tags := none, category := none, context := none }]
    uuidCounter := 0 }

def exGen (n : Nat) : String :=
  String.mk (List.replicate n 'a')

/-! ## Helper lemmas about the ORDER BY model -/

theorem sortByKey_perm {α K : Type} [LinearOrder K] (k : α → K) (l : List α) :
    (sortByKey k l).Perm l :=
  List.perm_insertionSort _ l

theorem sortByKey_pairwise {α K : Type} [LinearOrder K] (k : α → K) (l : List α) :
    (sortByKey k l).Pairwise (fun a b => k a ≤ k b) :=
  List.sorted_insertionSort (keyRel k) l

theorem dirSort_perm {α K : Type} [LinearOrder K] (so : String) (k : α → K) (l : List α) :
    (dirSort so k l).Perm l := by
  unfold dirSort
  split
  · exact sortByKey_perm _ _
  · exact sortByKey_perm _ _

/-! ## C1: tag search -/

/-- Claim C1: the spec says searchByTags returns the experiences whose
case-folded tag set meets the query tag set and never raises. The code
instead evaluates exp.get on a raw sqlite3.Row, which has no such method, so
the search raises AttributeError on every store holding at least one
experience; only the empty store returns the empty sequence. -/
theorem c1_searchByTags_raises_attributeError :
    search_experiences_by_tags [exExp1] ["python"] =
      Except.error "AttributeError: sqlite3.Row object has no attribute get"
    ∧ search_experiences_by_tags [] ["python"] = Except.ok []
    ∧ exExp1.tags = some "python" :=
  ⟨rfl, rfl, rfl⟩

/-! ## C7: tag parsing -/

/-- Claim C7: toDocument parses the comma-separated tags string into the
ordered sequence of trimmed tokens, dropping every empty token, and on the
tags string of the spec example yields exactly a, b, c. -/
theorem c7_toDocument_tag_parsing (e : ExperienceRow) :
    (format_experience_for_rag e).tags
        = ((pySplit (orEmpty e.tags) ',').map pyStrip).filter (fun t => t != "")
    ∧ (∀ t ∈ (format_experience_for_rag e).tags, t ≠ "")
    ∧ (format_experience_for_rag { exExp1 with tags := some "a, ,b,,c " }).tags
        = ["a", "b", "c"] := by
  refine ⟨rfl, ?_, by decide⟩
  intro t ht
  simp only [format_experience_for_rag, parseTags, List.mem_filter] at ht
  simpa using ht.2

/-! ## C9: the has_tags metadata flag -/

/-- Claim C9: has_tags records the truthiness of the raw tags string, not the
non-emptiness of the parsed tag list: the comma-only tags string gives
has_tags true together with an empty parsed tag sequence. -/
theorem c9_has_tags_is_raw_truthiness (e : ExperienceRow) :
    (format_experience_for_rag e).metadata.has_tags = pyBool e.tags
    ∧ (format_experience_for_rag exExpCommas).metadata.has_tags = true
    ∧ (format_experience_for_rag exExpCommas).tags = []
    ∧ exExpCommas.tags = some "," :=
  ⟨rfl, by decide, by decide, rfl⟩

/-! ## C8: prompt context assembly -/

theorem promptBlocks_enumFrom (l : List ExperienceRow) (i : Nat) :
    ((l.enumFrom i).map (fun p => expBlock (p.1 + 1) p.2)).flatten
      = promptBlocks (i + 1) l := by
  induction l generalizing i with
  | nil => rfl
  | cons e rest ih => simp [List.enumFrom, promptBlocks, ih]

/-- Claim C8: the prompt context is the deterministic assembly of a header,
one block per retained experience in order (title always; category, tags and
context lines only when non-empty; then the content), the literal user query
and the closing instruction; only the first max_experiences records are used;
and the spec example with no category and no tags omits the Category and Tags
lines while keeping Content and the literal query. -/
theorem c8_prompt_context_assembly (query : String) (es : List ExperienceRow) (n : Nat) :
    create_rag_prompt_context query es n
      = String.intercalate "\n"
          (["Based on the following past experiences:\n"]
           ++ promptBlocks 1 (es.take n)
           ++ ["\nUser Query: " ++ query ++ "\n",
               "Please provide a helpful response based on the above experiences."])
    ∧ create_rag_prompt_context query es n = create_rag_prompt_context query (es.take n) n
    ∧ (∀ i e, pyBool (format_experience_for_rag e).category = false →
         (format_experience_for_rag e).tags = [] →
         pyBool (format_experience_for_rag e).context = false →
         expBlock i e =
           ["\n--- Experience " ++ pyNatStr i ++ " ---",
            "Title: " ++ (format_experience_for_rag e).title,
            "\nContent:\n" ++ (format_experience_for_rag e).content ++ "\n"])
    ∧ create_rag_prompt_context "Q" [exExpPlain] 5
        = "Based on the following past experiences:\n\n\n--- Experience 1 ---\nTitle: T\n\nContent:\nC\n\n\nUser Query: Q\n\nPlease provide a helpful response based on the above experiences." := by
  refine ⟨?_, ?_, ?_, rfl⟩
  · unfold create_rag_prompt_context
    rw [show (es.take n).enum = (es.take n).enumFrom 0 from rfl, promptBlocks_enumFrom]
  · unfold create_rag_prompt_context
    rw [List.take_take]
    simp
  · intro i e h1 h2 h3
    simp [expBlock, h1, h2, h3]

/-! ## Reduction lemmas for get_todos at fixed sort columns -/

theorem get_todos_status_asc (store : List TodoRow) (today : Int) (f : String)
    (fd td : Option Int) (incl : String) :
    get_todos store today f fd td "status" "ASC" incl
      = sortByKey (fun t => statusRank t.status)
          (store.filter (todoKeep f incl fd td)) := rfl

theorem get_todos_status_desc (store : List TodoRow) (today : Int) (f : String)
    (fd td : Option Int) (incl : String) :
    get_todos store today f fd td "status" "DESC" incl
      = sortByKey (fun t => OrderDual.toDual (statusRank t.status))
          (store.filter (todoKeep f incl fd td)) := rfl

theorem get_todos_priority_asc (store : List TodoRow) (today : Int) (f : String)
    (fd td : Option Int) (incl : String) :
    get_todos store today f fd td "priority" "ASC" incl
      = sortByKey (fun t => priorityRank t.priority)
          (store.filter (todoKeep f incl fd td)) := rfl

theorem get_todos_priority_desc (store : List TodoRow) (today : Int) (f : String)
    (fd td : Option Int) (incl : String) :
    get_todos store today f fd td "priority" "DESC" incl
      = sortByKey (fun t => OrderDual.toDual (priorityRank t.priority))
          (store.filter (todoKeep f incl fd td)) := rfl

theorem get_todos_remaining_asc (store : List TodoRow) (today : Int) (f : String)
    (fd td : Option Int) (incl : String) :
    get_todos store today f fd td "remaining_days" "ASC" incl
      = sortByKey
          (fun t => toLex (((if t.target_date = none then 1 else 0 : Nat)),
            remainingDays today t))
          (store.filter (todoKeep f incl fd td)) := rfl

theorem get_todos_remaining_desc (store : List TodoRow) (today : Int) (f : String)
    (fd td : Option Int) (incl : String) :
    get_todos store today f fd td "remaining_days" "DESC" incl
      = sortByKey
          (fun t => toLex (((if t.target_date = none then 1 else 0 : Nat)),
            OrderDual.toDual (remainingDays today t)))
          (store.filter (todoKeep f incl fd td)) := rfl

theorem todoSort_perm (today : Int) (sb so : String) (l : List TodoRow) :
    (todoSort today sb so l).Perm l := by
  unfold todoSort
  repeat' split
  all_goals first
    | exact dirSort_perm _ _ _
    | exact sortByKey_perm _ _

theorem get_todos_perm (store : List TodoRow) (today : Int) (f : String)
    (fd td : Option Int) (sb so incl : String) :
    (get_todos store today f fd td sb so incl).Perm
      (store.filter (todoKeep f incl fd td)) :=
  todoSort_perm _ _ _ _

theorem statusRank_le_six (s : String) : statusRank s ≤ 6 := by
  unfold statusRank
  split_ifs <;> omega

theorem priorityRank_le_five (p : Option String) : priorityRank p ≤ 5 := by
  unfold priorityRank
  split <;> omega

/-! ## C2: rank of unrecognized status and priority values -/

/-- Claim C2 counterexample: sorting by status in DESC order puts a task with
the unrecognized status garbage (rank 6) before the task with the recognized
status done (rank 5), so unrecognized values do not appear after all
recognized values in both directions. -/
theorem c2_counterexample_desc_unrecognized_first :
    (get_todos [exDoneTodo, exGarbageTodo] 0 "" none none "status" "DESC" "true").map
        (fun t => t.status) = ["garbage", "done"]
    ∧ statusRank "garbage" = 6 ∧ statusRank "done" = 5 :=
  ⟨rfl, rfl, rfl⟩

/-- Claim C2 as amended: tasks whose status (resp. priority) is outside the
recognized enumeration carry the maximal rank, so they appear after every
task with a recognized value when the sort direction is ASC, and before every
such task when the direction is DESC. -/
theorem c2_amended_unrecognized_rank_last (store : List TodoRow) (today : Int)
    (f incl : String) (fd td : Option Int) :
    ((get_todos store today f fd td "status" "ASC" incl).Pairwise
       (fun a b => statusRank a.status = 6 → statusRank b.status = 6))
    ∧ ((get_todos store today f fd td "status" "DESC" incl).Pairwise
       (fun a b => statusRank b.status = 6 → statusRank a.status = 6))
    ∧ ((get_todos store today f fd td "priority" "ASC" incl).Pairwise
       (fun a b => priorityRank a.priority = 5 → priorityRank b.priority = 5))
    ∧ ((get_todos store today f fd td "priority" "DESC" incl).Pairwise
       (fun a b => priorityRank b.priority = 5 → priorityRank a.priority = 5)) := by
  refine ⟨?_, ?_, ?_, ?_⟩
  · rw [get_todos_status_asc]
    refine (sortByKey_pairwise _ _).imp ?_
    intro a b h h6
    have hb := statusRank_le_six b.status
    omega
  · rw [get_todos_status_desc]
    refine (sortByKey_pairwise _ _).imp ?_
    intro a b h h6
    have h2 : statusRank b.status ≤ statusRank a.status := h
    have ha := statusRank_le_six a.status
    omega
  · rw [get_todos_priority_asc]
    refine (sortByKey_pairwise _ _).imp ?_
    intro a b h h5
    have hb := priorityRank_le_five b.priority
    omega
  · rw [get_todos_priority_desc]
    refine (sortByKey_pairwise _ _).imp ?_
    intro a b h h5
    have h2 : priorityRank b.priority ≤ priorityRank a.priority := h
    have ha := priorityRank_le_five a.priority
    omega

/-! ## C5: the done filter of listTasks -/

/-- Claim C5: without a status filter and with include_done false, no
returned task has status done; with a status filter the result is exactly
the stored tasks of that status (in particular done tasks when the filter is
done); with include_done true and no filter a done task can be returned. -/
theorem c5_done_filtering (store : List TodoRow) (today : Int)
    (fd td : Option Int) (sb so : String) (f incl : String) (hf : f ≠ "") :
    ((get_todos store today "" fd td sb so "false").all (fun t => t.status != "done"))
    ∧ (get_todos store today f none none sb so incl).Perm
        (store.filter (fun t => t.status == f))
    ∧ exDoneTodo ∈ get_todos [exDoneTodo] 0 "" none none "created_at" "DESC" "true" := by
  refine ⟨?_, ?_, by decide⟩
  · rw [List.all_eq_true]
    intro t ht
    have ht2 := List.of_mem_filter ((get_todos_perm store today "" fd td sb so "false").mem_iff.mp ht)
    simp only [todoKeep, Bool.and_eq_true] at ht2
    simpa using ht2.1.1
  · refine (get_todos_perm store today f none none sb so incl).trans ?_
    rw [List.filter_congr (fun t _ => ?_)]
    simp [todoKeep, hf]

/-- Witness for C5 at the filter done on a one-task store. -/
theorem c5_witness :
    (get_todos [exDoneTodo] 0 "done" none none "created_at" "DESC" "false").Perm
      ([exDoneTodo].filter (fun t => t.status == "done")) :=
  (c5_done_filtering [exDoneTodo] 0 none none "created_at" "DESC" "done" "false"
    (by decide)).2.1

/-! ## C6: sorting by remaining days -/

/-- Claim C6: under the remaining_days sort the tasks with a target date are
ordered by (target_date minus today) in the requested direction, and every
task without a target date comes after all tasks that have one, in both
directions. -/
theorem c6_remaining_days_nulls_last (store : List TodoRow) (today : Int)
    (f incl : String) (fd td : Option Int) :
    ((get_todos store today f fd td "remaining_days" "ASC" incl).Pairwise
       (fun a b => (a.target_date = none → b.target_date = none)
         ∧ (∀ x y, a.target_date = some x → b.target_date = some y →
              x - today ≤ y - today)))
    ∧ ((get_todos store today f fd td "remaining_days" "DESC" incl).Pairwise
       (fun a b => (a.target_date = none → b.target_date = none)
         ∧ (∀ x y, a.target_date = some x → b.target_date = some y →
              y - today ≤ x - today))) := by
  constructor
  · rw [get_todos_remaining_asc]
    refine (sortByKey_pairwise _ _).imp ?_
    intro a b h
    rw [Prod.Lex.le_iff] at h
    constructor
    · intro ha
      by_cases hb : b.target_date = none
      · exact hb
      · exfalso
        rcases h with h | ⟨h1, _⟩
        · simp [ha, hb] at h
        · simp [ha, hb] at h1
    · intro x y hx hy
      rcases h with h | ⟨_, h2⟩
      · simp [hx, hy] at h
      · have h3 : remainingDays today a ≤ remainingDays today b := h2
        simpa [remainingDays, hx, hy] using h3
  · rw [get_todos_remaining_desc]
    refine (sortByKey_pairwise _ _).imp ?_
    intro a b h
    rw [Prod.Lex.le_iff] at h
    constructor
    · intro ha
      by_cases hb : b.target_date = none
      · exact hb
      · exfalso
        rcases h with h | ⟨h1, _⟩
        · simp [ha, hb] at h
        · simp [ha, hb] at h1
    · intro x y hx hy
      rcases h with h | ⟨_, h2⟩
      · simp [hx, hy] at h
      · have h3 : remainingDays today b ≤ remainingDays today a := h2
        simpa [remainingDays, hx, hy] using h3

/-! ## C3 and C10: the daily task view -/

theorem get_todays_tasks_eq (store : List TodoRow) (today : Int) :
    get_todays_tasks store today
      = sortByKey (todaysKey today) (store.filter (todaysPred today)) := rfl

theorem todaysKey_le_iff (today : Int) (a b : TodoRow) :
    todaysKey today a ≤ todaysKey today b ↔
      ((isOverdue today a = true ∧ isOverdue today b = false)
       ∨ (isOverdue today a = isOverdue today b ∧
          (todayPrioRank a.priority < todayPrioRank b.priority
           ∨ (todayPrioRank a.priority = todayPrioRank b.priority
              ∧ optKey a.start_date ≤ optKey b.start_date)))) := by
  unfold todaysKey
  rw [Prod.Lex.le_iff, Prod.Lex.le_iff]
  cases hA : isOverdue today a <;> cases hB : isOverdue today b <;> simp [hA, hB]

/-- Claim C3: getTodaysTasks returns exactly the stored tasks inside their
work window today or overdue (planned end passed, status not done), ordered
with the overdue tasks first, then by the fixed priority rank ascending
(Critical first), then by start date ascending; and a task whose end date
lies before today with status in-progress is flagged overdue and therefore
precedes every non-overdue task. -/
theorem c3_todays_tasks_membership_and_order (store : List TodoRow) (today : Int) :
    (get_todays_tasks store today).Perm (store.filter (todaysPred today))
    ∧ (get_todays_tasks store today).Pairwise (fun a b =>
        (isOverdue today a = true ∧ isOverdue today b = false)
        ∨ (isOverdue today a = isOverdue today b ∧
           (todayPrioRank a.priority < todayPrioRank b.priority
            ∨ (todayPrioRank a.priority = todayPrioRank b.priority
               ∧ optKey a.start_date ≤ optKey b.start_date))))
    ∧ (∀ t e, t ∈ store → t.end_date = some e → e < today → t.status = "in-progress" →
         isOverdue today t = true ∧ t ∈ get_todays_tasks store today) := by
  refine ⟨sortByKey_perm _ _, ?_, ?_⟩
  · rw [get_todays_tasks_eq]
    refine (sortByKey_pairwise _ _).imp ?_
    intro a b h
    exact (todaysKey_le_iff today a b).mp h
  · intro t e ht he hlt hst
    have hov : isOverdue today t = true := by
      simp [isOverdue, he, hlt, hst]
    refine ⟨hov, ?_⟩
    rw [get_todays_tasks_eq,
      (sortByKey_perm (todaysKey today) (store.filter (todaysPred today))).mem_iff]
    exact List.mem_filter.mpr ⟨ht, by simp [todaysPred, hov]⟩

/-- Witness for C3 on a two-task store: the overdue in-progress low-priority
task is flagged and listed. -/
theorem c3_witness :
    isOverdue 0 exOverdueTodo = true
    ∧ exOverdueTodo ∈ get_todays_tasks [exWindowTodo, exOverdueTodo] 0 :=
  (c3_todays_tasks_membership_and_order [exWindowTodo, exOverdueTodo] 0).2.2
    exOverdueTodo (-1) (by decide) rfl (by decide) rfl

/-- Claim C10: the daily view never returns a task without an end date (a
task with a start date but no end date is excluded whatever its status), yet
a task with no start date whose end date has passed and whose status is not
done is included through the overdue branch. -/
theorem c10_no_null_end_date (store : List TodoRow) (today : Int) :
    ((get_todays_tasks store today).all (fun t => t.end_date.isSome))
    ∧ (∀ t e, t ∈ store → t.start_date = none → t.end_date = some e → e < today →
         t.status ≠ "done" → t ∈ get_todays_tasks store today) := by
  constructor
  · rw [List.all_eq_true]
    intro t ht
    rw [get_todays_tasks_eq] at ht
    have ht2 := List.of_mem_filter
      ((sortByKey_perm (todaysKey today) (store.filter (todaysPred today))).mem_iff.mp ht)
    cases hE : t.end_date with
    | some e => simp [hE]
    | none => simp [todaysPred, inWorkWindow, isOverdue, hE] at ht2
  · intro t e ht hs he hlt hnd
    have hov : isOverdue today t = true := by
      simp [isOverdue, he, hlt, hnd]
    rw [get_todays_tasks_eq,
      (sortByKey_perm (todaysKey today) (store.filter (todaysPred today))).mem_iff]
    exact List.mem_filter.mpr ⟨ht, by simp [todaysPred, hov]⟩

/-- Witness for C10: a task with no start date, an end date in the past and
status in-progress is returned by the daily view. -/
theorem c10_witness :
    exOverdueTodo ∈ get_todays_tasks [exOverdueTodo] 0 :=
  (c10_no_null_end_date [exOverdueTodo] 0).2 exOverdueTodo (-1)
    (by decide) rfl rfl (by decide) (by decide)

/-! ## C4: idempotent schema initialization -/

theorem init_db_eq_phases (gen : Nat → String) (s : DBFile) :
    init_db gen s = expsPhase (todosPhase gen s) := rfl

theorem expsPhase_spec (s : DBFile) :
    (expsPhase s).todos = s.todos
    ∧ (expsPhase s).todoRows = s.todoRows
    ∧ (expsPhase s).exps.tableExists = true
    ∧ (expsPhase s).exps.hasTags = true
    ∧ (expsPhase s).exps.hasCategory = true
    ∧ (expsPhase s).exps.hasContext = true := by
  obtain ⟨td, tr, ⟨ete, etg, ecat, ectx⟩, er, c⟩ := s
  cases ete <;> cases etg <;> cases ecat <;> cases ectx <;>
    exact ⟨rfl, rfl, rfl, rfl, rfl, rfl⟩

theorem todosPhase_spec (gen : Nat → String) (s : DBFile) :
    (todosPhase gen s).todos.tableExists = true
    ∧ (todosPhase gen s).todos.hasPriority = true
    ∧ (todosPhase gen s).todos.hasTargetDate = true
    ∧ (todosPhase gen s).todos.hasStartDate = true
    ∧ (todosPhase gen s).todos.hasEndDate = true
    ∧ (todosPhase gen s).todos.hasUniqueId = true := by
  obtain ⟨⟨te, hp, htd, hsd, hed, hu, ui⟩, tr, ex, er, c⟩ := s
  cases te <;> cases hp <;> cases htd <;> cases hsd <;> cases hed <;> cases hu <;>
    exact ⟨rfl, rfl, rfl, rfl, rfl, rfl⟩

theorem init_db_all_current (gen : Nat → String) (s : DBFile) :
    AllCurrent (init_db gen s) := by
  obtain ⟨e1, e2, e3, e4, e5, e6⟩ := expsPhase_spec (todosPhase gen s)
  obtain ⟨t1, t2, t3, t4, t5, t6⟩ := todosPhase_spec gen s
  unfold AllCurrent
  rw [init_db_eq_phases]
  refine ⟨?_, ?_, ?_, ?_, ?_, ?_, e3, e4, e5, e6⟩ <;> rw [e1]
  exacts [t1, t2, t3, t4, t5, t6]

theorem init_db_of_current (gen : Nat → String) (s : DBFile) (h : AllCurrent s) :
    init_db gen s = s := by
  obtain ⟨h1, h2, h3, h4, h5, h6, h7, h8, h9, h10⟩ := h
  simp only [init_db, createTodosTable, createExperiencesTable, tryOp, addColumnPriority,
    addColumnTargetDate, addColumnStartDate, addColumnEndDate, addColumnUniqueId,
    addColumnTags, addColumnCategory, addColumnContext, h1, h2, h3, h4, h5, h6, h7, h8,
    h9, h10, if_true]

theorem backfillUniqueIds_mem_uid (gen : Nat → String) (c : Nat) (l : List TodoRow) :
    ∀ r ∈ backfillUniqueIds gen c l, ∃ i, r.unique_id = some (gen (c + i)) := by
  induction l generalizing c with
  | nil =>
      intro r hr
      simp [backfillUniqueIds] at hr
  | cons x xs ih =>
      intro r hr
      simp only [backfillUniqueIds, List.mem_cons] at hr
      rcases hr with h | hr2
      · exact ⟨0, by rw [h]; rfl⟩
      · obtain ⟨i, hi⟩ := ih (c + 1) r hr2
        exact ⟨1 + i, by rw [hi, Nat.add_assoc]⟩

theorem backfillUniqueIds_isSome (gen : Nat → String) (c : Nat) (l : List TodoRow) :
    ∀ r ∈ backfillUniqueIds gen c l, r.unique_id.isSome = true := by
  intro r hr
  obtain ⟨i, hi⟩ := backfillUniqueIds_mem_uid gen c l r hr
  rw [hi]
  rfl

theorem backfillUniqueIds_nodup (gen : Nat → String) (hinj : Function.Injective gen)
    (c : Nat) (l : List TodoRow) :
    ((backfillUniqueIds gen c l).map (fun r => r.unique_id)).Nodup := by
  induction l generalizing c with
  | nil => simp [backfillUniqueIds]
  | cons x xs ih =>
      simp only [backfillUniqueIds, List.map_cons, List.nodup_cons]
      refine ⟨?_, ih (c + 1)⟩
      intro hmem
      obtain ⟨r, hr, he⟩ := List.mem_map.mp hmem
      obtain ⟨i, hi⟩ := backfillUniqueIds_mem_uid gen (c + 1) xs r hr
      rw [hi] at he
      have h2 : c + 1 + i = c := hinj (Option.some.inj he)
      omega

theorem init_db_backfill_shape (gen : Nat → String) (s : DBFile)
    (h : s.todos.hasUniqueId = false) :
    (∃ c l, (init_db gen s).todoRows = backfillUniqueIds gen c l)
    ∧ (init_db gen s).todos.uniqueIdx = true := by
  obtain ⟨hT, hR, _, _, _, _⟩ := expsPhase_spec (todosPhase gen s)
  rw [init_db_eq_phases, hT, hR]
  obtain ⟨⟨te, hp, htd, hsd, hed, hu, ui⟩, tr, ex, er, c⟩ := s
  cases hu with
  | true => simp at h
  | false =>
      cases te <;> cases hp <;> cases htd <;> cases hsd <;> cases hed <;>
        first
          | exact ⟨⟨_, _, rfl⟩, rfl⟩
          | exact ⟨⟨0, [], rfl⟩, rfl⟩

/-- Claim C4: schema initialization is idempotent. A second run leaves the
whole store unchanged; after a run both tables carry every column; an
attempted re-add of a column raises the duplicate-column error and the
try/except wrapper swallows it, returning the store unchanged; and when the
token column was missing, initialization backfills a fresh generator value
into every pre-existing row, pairwise distinct whenever the generator is
injective, with the uniqueness index created afterwards. -/
theorem c4_schema_init_idempotent (gen : Nat → String) (s : DBFile)
    (hinj : Function.Injective gen) :
    init_db gen (init_db gen s) = init_db gen s
    ∧ AllCurrent (init_db gen s)
    ∧ addColumnPriority (init_db gen s)
        = Except.error "OperationalError: duplicate column name priority"
    ∧ tryOp addColumnPriority (init_db gen s) = init_db gen s
    ∧ (s.todos.hasUniqueId = false →
        ((init_db gen s).todoRows.map (fun r => r.unique_id)).Nodup
        ∧ (∀ r ∈ (init_db gen s).todoRows, r.unique_id.isSome = true)
        ∧ (init_db gen s).todos.uniqueIdx = true) := by
  have hcur := init_db_all_current gen s
  have herr : addColumnPriority (init_db gen s)
      = Except.error "OperationalError: duplicate column name priority" := by
    unfold addColumnPriority
    simp [hcur.2.1]
  refine ⟨init_db_of_current gen _ hcur, hcur, herr, ?_, ?_⟩
  · unfold tryOp
    rw [herr]
  · intro h
    obtain ⟨⟨c, l, hrows⟩, hidx⟩ := init_db_backfill_shape gen s h
    exact ⟨by rw [hrows]; exact backfillUniqueIds_nodup gen hinj c l,
           by rw [hrows]; exact backfillUniqueIds_isSome gen c l,
           hidx⟩

theorem exGen_injective : Function.Injective exGen := by
  intro m n h
  have h2 := congrArg (fun t => t.data.length) h
  simpa [exGen] using h2

/-- Witness for C4 on a populated store with the old schema. -/
theorem c4_witness :
    ((init_db exGen exOldDb).todoRows.map (fun r => r.unique_id)).Nodup
    ∧ init_db exGen (init_db exGen exOldDb) = init_db exGen exOldDb :=
  ⟨((c4_schema_init_idempotent exGen exOldDb exGen_injective).2.2.2.2 rfl).1,
   (c4_schema_init_idempotent exGen exOldDb exGen_injective).1⟩
